import Mathlib

/-!
Verification of the PromtSpace catalog application: a shallow embedding of
the two Express servers (`src/server.js`, `src/portal/server.js`), the
vanilla front-end (`src/portal/public/js/app.js`) and the React front-end,
together with theorems about their search, navigation, caching and
detail-overlay behaviour.
-/

namespace PromtSpace

/-! ## String utilities

Character-list models of the JavaScript string methods the code uses:
`jsIncludes` for `includes`, `jsToLower` for `toLowerCase` (character-wise
lower-casing), `jsTrim` for `trim`, `jsEndsWith` for `endsWith`. -/

def includesChars (needle : List Char) : List Char → Bool
  | [] => needle.isEmpty
  | c :: t => needle.isPrefixOf (c :: t) || includesChars needle t

def jsIncludes (hay needle : String) : Bool :=
  includesChars needle.toList hay.toList

def jsToLower (s : String) : String := ⟨s.data.map Char.toLower⟩

def jsTrim (s : String) : String :=
  ⟨((s.data.dropWhile Char.isWhitespace).reverse.dropWhile Char.isWhitespace).reverse⟩

def jsEndsWith (s pat : String) : Bool := pat.data.isSuffixOf s.data

/-! ## Data model (src/types.ts and the JSON file shapes) -/

structure Category where
  id : String
  name : String
  description : String
  iconName : String
  promptCount : Nat
  gradient : String
deriving DecidableEq, Repr

structure Prompt where
  id : String
  categoryId : String
  title : String
  shortDescription : String
  fullDescription : Option String
  content : Option String
  tags : List String
deriving DecidableEq, Repr

/-- Shape of a per-category JSON file: `{ prompts: [...] }`. -/
structure CategoryDoc where
  prompts : List Prompt
deriving DecidableEq, Repr

/-- Category record as stored by the portal variant (fields the portal code
reads: `id`, `name`, `image`, `promptCount`). -/
structure PCategory where
  id : String
  name : String
  image : String
  promptCount : Nat
deriving DecidableEq, Repr

/-- Per-prompt JSON file of the portal variant (fields the portal server
reads: `id`, `categoryId`, `title`, `description`, `prompt`). -/
structure PortalPrompt where
  id : String
  categoryId : String
  title : String
  description : String
  prompt : String
deriving DecidableEq, Repr

/-- Search-result record built by the portal server. -/
structure PortalSearchResult where
  id : String
  categoryId : String
  categoryName : String
  title : String
  description : String
deriving DecidableEq, Repr

/-! ## ESM server (src/server.js)

File reads are modelled as functions into `Option`: `none` is a failed
read or parse (the `catch` branch).  A route returns `Except Nat α`,
`Except.error s` standing for an error response with HTTP status `s`. -/

/-- `GET /api/categories/:id` of src/server.js: `fs.readFile` + `JSON.parse`,
any failure answered with status 404. -/
def esmCategoryRoute (file : Option (Option CategoryDoc)) : Except Nat CategoryDoc :=
  match file with
  | some (some doc) => Except.ok doc
  | _ => Except.error 404

/-- The prompt-collection loop of `GET /api/search` in src/server.js: for
each category, read its file and append its prompts; a failed read is caught
and the category skipped. -/
def collectAllPrompts (cats : List Category) (readCat : String → Option (List Prompt)) :
    List Prompt :=
  match cats with
  | [] => []
  | c :: rest =>
      (match readCat c.id with
       | some ps => ps
       | none => []) ++ collectAllPrompts rest readCat

/-- The per-prompt test of `GET /api/search` in src/server.js: title,
short description, or some tag contains the (lower-cased) query. -/
def esmMatches (query : String) (p : Prompt) : Bool :=
  jsIncludes (jsToLower p.title) query ||
  jsIncludes (jsToLower p.shortDescription) query ||
  p.tags.any (fun tag => jsIncludes (jsToLower tag) query)

/-- `GET /api/search` of src/server.js.  `q` is the query parameter (absent
modelled as `""`), `catsFile` the parse of `categories.json` (`none` = read
failure, answered 500), `readCat` the per-category file reads. -/
def esmSearch (q : String) (catsFile : Option (List Category))
    (readCat : String → Option (List Prompt)) : Except Nat (List Prompt) :=
  let query := jsToLower q
  if query.length < 2 then Except.ok []
  else
    match catsFile with
    | none => Except.error 500
    | some cats => Except.ok ((collectAllPrompts cats readCat).filter (esmMatches query))

/-! ## Portal server (src/portal/server.js) -/

/-- `GET /api/categories/:categoryId` of src/portal/server.js:
`existsSync` guards a 404; a read/parse failure of an existing file is the
`catch` branch, answered 500. -/
def portalCategoryRoute (file : Option (Option CategoryDoc)) : Except Nat CategoryDoc :=
  match file with
  | none => Except.error 404
  | some none => Except.error 500
  | some (some doc) => Except.ok doc

/-- The `categoriesMap` lookup of the portal search: assignment in file
order means a later duplicate id overwrites an earlier one, and a missing
id falls back to the default name. -/
def portalLookupName (cats : List PCategory) (cid : String) : String :=
  match cats.reverse.find? (fun c => c.id == cid) with
  | some c => c.name
  | none => "Неизвестная категория"

/-- The per-prompt test of `GET /api/search` in src/portal/server.js:
title, description, or the prompt body contains the query. -/
def portalMatches (query : String) (p : PortalPrompt) : Bool :=
  jsIncludes (jsToLower p.title) query ||
  jsIncludes (jsToLower p.description) query ||
  jsIncludes (jsToLower p.prompt) query

/-- The result record pushed by the portal search for a matching prompt. -/
def toSearchResult (cats : List PCategory) (p : PortalPrompt) : PortalSearchResult :=
  { id := p.id
    categoryId := p.categoryId
    categoryName := portalLookupName cats p.categoryId
    title := p.title
    description := p.description }

/-- Reading every `.json` file of the prompts directory: `none` as soon as
one such file fails to read or parse (the exception escapes the `forEach`
into the outer `catch`). -/
def portalCollect (files : List (String × Option PortalPrompt)) :
    Option (List PortalPrompt) :=
  match files with
  | [] => some []
  | (name, data) :: rest =>
      if jsEndsWith name ".json" then
        match data with
        | none => none
        | some p => (portalCollect rest).map (p :: ·)
      else portalCollect rest

/-- `GET /api/search` of src/portal/server.js.  Only a blank (empty after
trim) query short-circuits; `catsFile` is the parse of `categories.json`
and `dir` the directory listing with each file's parse result (`none` =
failure, answered 500). -/
def portalSearch (q : String) (catsFile : Option (List PCategory))
    (dir : Option (List (String × Option PortalPrompt))) :
    Except Nat (List PortalSearchResult) :=
  if jsTrim q = "" then Except.ok []
  else
    let searchQuery := jsTrim (jsToLower q)
    match catsFile with
    | none => Except.error 500
    | some cats =>
        match dir with
        | none => Except.error 500
        | some files =>
            match portalCollect files with
            | none => Except.error 500
            | some prompts =>
                Except.ok ((prompts.filter (portalMatches searchQuery)).map
                  (toSearchResult cats))

/-! ## React front-end (src/unnamed/part_000)

The component state of `App`, its event handlers, the fetch the
`useEffect` on `[view, activeCategoryId, searchQuery]` dispatches for a
given state, and what the main area renders. -/

inductive View
  | home
  | category
deriving DecidableEq, Repr

structure AppState where
  view : View
  activeCategoryId : Option String
  categories : List Category
  prompts : List Prompt
  searchQuery : String
  loadingPrompts : Bool
  selectedPrompt : Option Prompt
  isModalOpen : Bool
deriving DecidableEq, Repr

/-- `handleCategoryClick`: activate the category, switch the view, clear
the query. -/
def handleCategoryClick (st : AppState) (id : String) : AppState :=
  { st with activeCategoryId := some id, view := View.category, searchQuery := "" }

/-- `handleBack`: return home, clearing category, query and prompt list. -/
def handleBack (st : AppState) : AppState :=
  { st with view := View.home, activeCategoryId := none, searchQuery := "",
            prompts := [] }

/-- `handleSearchChange`: store the input value; if it is longer than two
characters and the view is not home, switch to home. -/
def handleSearchChange (st : AppState) (val : String) : AppState :=
  { st with searchQuery := val,
            view :=
              if val.length > 2 then
                if st.view ≠ View.home then View.home else st.view
              else st.view }

/-- The asynchronous work the data-loading `useEffect` starts for a given
state. -/
inductive FetchAction
  | loadCategoryPrompts (id : String)
  | searchPrompts (q : String)
  | idle
deriving DecidableEq, Repr

/-- The branch structure of the `useEffect` on
`[view, activeCategoryId, searchQuery]`: a truthy active category in
category view loads that category's prompts; otherwise a home-view query
longer than two characters runs the global search; otherwise nothing. -/
def effectAction (st : AppState) : FetchAction :=
  if st.view = View.category ∧ st.activeCategoryId.getD "" ≠ "" then
    FetchAction.loadCategoryPrompts (st.activeCategoryId.getD "")
  else if st.view = View.home ∧ st.searchQuery.length > 2 then
    FetchAction.searchPrompts st.searchQuery
  else FetchAction.idle

/-- What the main area shows. -/
inductive MainContent
  | categoryGrid (cats : List Category)
  | skeleton
  | notFoundState
  | promptsList (ps : List Prompt)
deriving DecidableEq, Repr

/-- `filteredCategories`: the local, case-insensitive category-name filter
applied to the grid while a query is typed. -/
def filteredCategories (st : AppState) : List Category :=
  if st.searchQuery = "" then st.categories
  else st.categories.filter
    (fun c => jsIncludes (jsToLower c.name) (jsToLower st.searchQuery))

/-- The render logic of `App`: the grid only at home with an empty query;
otherwise the prompts list, which is a skeleton while loading and an
empty-state when no prompts are held. -/
def renderMain (st : AppState) : MainContent :=
  if st.view = View.home ∧ st.searchQuery = "" then
    MainContent.categoryGrid (filteredCategories st)
  else if st.loadingPrompts then MainContent.skeleton
  else if st.prompts = [] then MainContent.notFoundState
  else MainContent.promptsList st.prompts

/-- First half of `handlePromptClick`: open the modal immediately with the
summary. -/
def openPrompt (st : AppState) (summary : Prompt) : AppState :=
  { st with selectedPrompt := some summary, isModalOpen := true }

/-- Resolution of the `getPromptById` call started by `handlePromptClick`:
`some fullPrompt` is a successful fetch, guarded by
`prev?.id === fullPrompt.id`; `none` is a missing prompt or a thrown
error, both of which close the modal. -/
def resolveDetail (st : AppState) (result : Option Prompt) : AppState :=
  match result with
  | some fullPrompt =>
      { st with selectedPrompt :=
          match st.selectedPrompt with
          | some prev => if prev.id = fullPrompt.id then some fullPrompt else some prev
          | none => none }
  | none => { st with isModalOpen := false }

/-! ## Vanilla front-end (src/portal/public/js/app.js) -/

/-- The client cache object (the `categories` table). -/
structure FrontCache where
  categories : Option (List PCategory)
deriving DecidableEq, Repr

/-- `loadCategories`: a cached value is rendered without fetching;
otherwise the provider is consulted (second component counts provider
invocations of this call), and only a successful response is stored. -/
def loadCategories (c : FrontCache) (resp : Except Unit (List PCategory)) :
    FrontCache × Nat :=
  match c.categories with
  | some _ => (c, 0)
  | none =>
      match resp with
      | Except.ok cats => ({ categories := some cats }, 1)
      | Except.error _ => (c, 1)

/-- The modal of the vanilla front-end: its visibility and the three
fields `openPromptModal` fills. -/
structure PortalModal where
  visible : Bool
  title : String
  description : String
  content : String
deriving DecidableEq, Repr

/-- `openPromptModal promptId`, applied to the result of `loadPrompt`: on
success the modal is filled and shown; on failure only an alert is raised
and the modal is left as it was. -/
def openPromptModal (m : PortalModal) (res : Except Unit PortalPrompt) : PortalModal :=
  match res with
  | Except.ok p =>
      { visible := true, title := p.title, description := p.description,
        content := p.prompt }
  | Except.error _ => m

/-! ## Interleaving semantics of the React search path

`input q` is a keystroke bringing the home-view query to `q`; the effect
dispatches a request for `q` whenever `q.length > 2` (the request is
recorded in `pending`).  `response q` is the arrival of the response to
the request issued for `q`; the continuation runs
`setPrompts(results)` with no check against the current query. -/

structure SearchSession where
  prompts : List Prompt
  searchQuery : String
  pending : List String
deriving DecidableEq, Repr

inductive SearchEvent
  | input (q : String)
  | response (q : String)
deriving DecidableEq, Repr

def searchStep (results : String → List Prompt) (st : SearchSession) :
    SearchEvent → SearchSession
  | SearchEvent.input q =>
      { st with searchQuery := q,
                pending := if q.length > 2 then st.pending ++ [q] else st.pending }
  | SearchEvent.response q =>
      { st with prompts := results q, pending := st.pending.erase q }

def runSearch (results : String → List Prompt) (st : SearchSession) :
    List SearchEvent → SearchSession
  | [] => st
  | e :: es => runSearch results (searchStep results st e) es

/-- A trace is valid when every response answers exactly one outstanding
request. -/
def validEvents (pending : List String) : List SearchEvent → Bool
  | [] => true
  | SearchEvent.input q :: es =>
      validEvents (if q.length > 2 then pending ++ [q] else pending) es
  | SearchEvent.response q :: es =>
      pending.contains q && validEvents (pending.erase q) es

/-- The query of the last user action of a trace. -/
def lastInputQuery : List SearchEvent → Option String
  | [] => none
  | SearchEvent.input q :: es => some ((lastInputQuery es).getD q)
  | SearchEvent.response _ :: es => lastInputQuery es

instance {ε α : Type} [DecidableEq ε] [DecidableEq α] : DecidableEq (Except ε α) :=
  fun x y =>
    match x, y with
    | Except.ok a, Except.ok b =>
        if h : a = b then isTrue (by rw [h])
        else isFalse (fun hc => h (by injection hc))
    | Except.error e, Except.error f =>
        if h : e = f then isTrue (by rw [h])
        else isFalse (fun hc => h (by injection hc))
    | Except.ok _, Except.error _ => isFalse (fun hc => Except.noConfusion hc)
    | Except.error _, Except.ok _ => isFalse (fun hc => Except.noConfusion hc)

/-! ## Concrete fixtures for witnesses and counterexamples -/

def promptA : Prompt :=
  { id := "p1", categoryId := "c1", title := "Email writer",
    shortDescription := "Writes polished emails", fullDescription := none,
    content := none, tags := ["writing"] }

def promptB : Prompt :=
  { id := "p2", categoryId := "c2", title := "Code reviewer",
    shortDescription := "Reviews pull requests", fullDescription := none,
    content := none, tags := ["coding"] }

def catA : Category :=
  { id := "c1", name := "Marketing", description := "Marketing prompts",
    iconName := "Megaphone", promptCount := 1, gradient := "from-pink-500" }

def catB : Category :=
  { id := "c2", name := "Coding", description := "Coding prompts",
    iconName := "Code", promptCount := 1, gradient := "from-blue-500" }

/-- Per-category reads where `c2`'s file is unreadable. -/
def readCatEx : String → Option (List Prompt) :=
  fun cid => if cid = "c1" then some [promptA] else none

/-- Category files where only `coding` exists, with zero prompts. -/
def catFilesEx : String → Option (Option CategoryDoc) :=
  fun cid => if cid = "coding" then some (some { prompts := [] }) else none

def pcatEx : PCategory :=
  { id := "c1", name := "Marketing", image := "📣", promptCount := 1 }

def portalPromptEx : PortalPrompt :=
  { id := "p1", categoryId := "c1", title := "Sales letter",
    description := "A letter template", prompt := "Write a sales letter" }

/-- A portal prompt whose body contains `zzq` while its title and
description do not. -/
def bodyPromptEx : PortalPrompt :=
  { id := "p9", categoryId := "c1", title := "Headline",
    description := "Short blurb", prompt := "Include the token zzq here" }

/-- The search results of a fixed two-prompt backing collection. -/
def demoResults (q : String) : List Prompt :=
  [promptA, promptB].filter (esmMatches (jsToLower q))

/-- Type "cod", then "ema"; the response for "ema" arrives first, the one
for "cod" last. -/
def raceTrace : List SearchEvent :=
  [SearchEvent.input "cod", SearchEvent.input "ema",
   SearchEvent.response "ema", SearchEvent.response "cod"]

def initSession : SearchSession :=
  { prompts := [], searchQuery := "", pending := [] }

/-- A React state sitting in the marketing category with prompt `p1`
selected in the open overlay. -/
def catStateEx : AppState :=
  { view := View.category, activeCategoryId := some "marketing",
    categories := [catA, catB], prompts := [promptA], searchQuery := "",
    loadingPrompts := false, selectedPrompt := some promptA, isModalOpen := true }

/-- A React home-view state holding the prompts of a previous fetch. -/
def homeStateEx : AppState :=
  { view := View.home, activeCategoryId := none,
    categories := [catA, catB], prompts := [promptB], searchQuery := "",
    loadingPrompts := false, selectedPrompt := none, isModalOpen := false }

def closedModalEx : PortalModal :=
  { visible := false, title := "", description := "", content := "" }

/-! ## Theorems -/

/-- C1: the claimed ordering guarantee fails on the code.  In a valid
interleaving of the React search path, the user types "cod" and then
"ema"; the response for "ema" resolves first and the stale response for
"cod" resolves last, and the displayed prompts are those of the
superseded query "cod", not of the last user action "ema": the resolution
continuation stores any response without checking it against the current
query. -/
theorem C1_stale_search_response_wins :
    validEvents [] raceTrace = true ∧
    lastInputQuery raceTrace = some "ema" ∧
    (runSearch demoResults initSession raceTrace).prompts = demoResults "cod" ∧
    (runSearch demoResults initSession raceTrace).prompts ≠ demoResults "ema" := by
  decide

/-- C2: when the React overlay's hydration fetch succeeds, the identifier
of the displayed selection is unchanged, and when the fetched detail's id
differs from the current selection's id the response has no effect on the
state at all. -/
theorem C2_overlay_id_guard (st : AppState) (fullPrompt : Prompt) :
    (resolveDetail st (some fullPrompt)).selectedPrompt.map Prompt.id
      = st.selectedPrompt.map Prompt.id ∧
    (st.selectedPrompt.map Prompt.id ≠ some fullPrompt.id →
      resolveDetail st (some fullPrompt) = st) := by
  constructor
  · cases h : st.selectedPrompt with
    | none => simp [resolveDetail, h]
    | some prev =>
        by_cases hid : prev.id = fullPrompt.id
        · simp [resolveDetail, h, hid]
        · simp [resolveDetail, h, hid]
  · intro hne
    obtain ⟨v, a, cs, ps, sq, lp, sel, mo⟩ := st
    cases sel with
    | none => simp [resolveDetail]
    | some prev =>
        have hid : ¬ prev.id = fullPrompt.id := by
          intro hc
          exact hne (by simp [hc])
        simp [resolveDetail, hid]

/-- Witness for C2 at a concrete state: the overlay shows `p1`, the late
detail is for `p2`, and the state is untouched. -/
theorem C2_overlay_id_guard_witness :
    catStateEx.selectedPrompt.map Prompt.id ≠ some promptB.id ∧
    resolveDetail catStateEx (some promptB) = catStateEx :=
  ⟨by decide, (C2_overlay_id_guard catStateEx promptB).2 (by decide)⟩

/-- C6: a failed hydration closes the React modal, and in the vanilla
variant a failed `loadPrompt` leaves the modal exactly as it was, so a
selection episode started with the overlay closed ends with it closed;
neither variant is left showing a loading overlay. -/
theorem C6_failure_closes_overlay (st : AppState) (m : PortalModal)
    (hm : m.visible = false) :
    (resolveDetail st none).isModalOpen = false ∧
    (openPromptModal m (Except.error ())).visible = false := by
  constructor
  · simp [resolveDetail]
  · simpa [openPromptModal] using hm

/-- Witness for C6 at a concrete state and a concrete closed modal. -/
theorem C6_failure_closes_overlay_witness :
    closedModalEx.visible = false ∧
    (resolveDetail catStateEx none).isModalOpen = false ∧
    (openPromptModal closedModalEx (Except.error ())).visible = false :=
  ⟨by decide, (C6_failure_closes_overlay catStateEx closedModalEx (by decide)).1,
   (C6_failure_closes_overlay catStateEx closedModalEx (by decide)).2⟩

/-- C8: two sequential `loadCategories` calls whose first fetch succeeds
invoke the provider at most once in total, and the second call never
consults the provider: the successful response is cached, and a cached
value is returned without fetching. -/
theorem C8_categories_cached (c0 : FrontCache) (cats : List PCategory)
    (r2 : Except Unit (List PCategory)) :
    (loadCategories c0 (Except.ok cats)).2
      + (loadCategories (loadCategories c0 (Except.ok cats)).1 r2).2 ≤ 1 ∧
    (loadCategories (loadCategories c0 (Except.ok cats)).1 r2).2 = 0 := by
  cases h : c0.categories <;> simp [loadCategories, h]

/-- C3 counterexample: in the portal server the one-character query "a"
is not short-circuited — the backing files are consulted and a non-empty
result is returned, refuting the claim that every query shorter than two
characters yields an empty sequence without touching the data source. -/
theorem C3_counterexample :
    ("a" : String).length < 2 ∧
    portalSearch "a" (some [pcatEx]) (some [("p1.json", some portalPromptEx)])
      = Except.ok [toSearchResult [pcatEx] portalPromptEx] ∧
    portalSearch "a" (some [pcatEx]) (some [("p1.json", some portalPromptEx)])
      ≠ Except.ok [] := by
  decide

/-- C3 amended: the ESM server answers every query shorter than two
characters with an empty sequence, independently of the backing files; the
portal server does the same only for queries that are blank after
trimming (a one-character non-blank query does invoke the backing
search). -/
theorem C3_amended :
    (∀ (q : String) catsFile readCat, (jsToLower q).length < 2 →
        esmSearch q catsFile readCat = Except.ok []) ∧
    (∀ (q : String) catsFile dir, jsTrim q = "" →
        portalSearch q catsFile dir = Except.ok []) := by
  constructor
  · intro q catsFile readCat h
    simp [esmSearch, h]
  · intro q catsFile dir h
    simp [portalSearch, h]

/-- Witness for C3 amended: the ESM server on "a" and the portal server on
a blank query, each with arbitrary backing data. -/
theorem C3_amended_witness :
    (jsToLower "a").length < 2 ∧
    esmSearch "a" none (fun _ => none) = Except.ok [] ∧
    jsTrim " " = "" ∧
    portalSearch " " none none = Except.ok [] :=
  ⟨by decide, C3_amended.1 "a" none (fun _ => none) (by decide),
   by decide, C3_amended.2 " " none none (by decide)⟩

/-- C5 counterexample: typing the two-character query "ab" while in the
category view does not transition back home — the view stays `category`
(and the effect refetches the active category's prompts, not a search),
refuting the claim for queries of length exactly the threshold 2. -/
theorem C5_counterexample :
    ("ab" : String).length = 2 ∧
    (handleSearchChange catStateEx "ab").view = View.category ∧
    (handleSearchChange catStateEx "ab").view ≠ View.home ∧
    effectAction (handleSearchChange catStateEx "ab")
      = FetchAction.loadCategoryPrompts "marketing" := by
  decide

/-- C5 amended: for queries strictly longer than two characters the input
handler switches the view to home, and the data effect dispatched from the
updated state is the global search for that query — so the transition
precedes the search. -/
theorem C5_amended (st : AppState) (q : String) (h : q.length > 2) :
    (handleSearchChange st q).view = View.home ∧
    effectAction (handleSearchChange st q) = FetchAction.searchPrompts q := by
  have hv : (handleSearchChange st q).view = View.home := by
    by_cases hh : st.view = View.home <;> simp [handleSearchChange, h, hh]
  have hsq : (handleSearchChange st q).searchQuery = q := rfl
  refine ⟨hv, ?_⟩
  simp [effectAction, hv, hsq, h]

/-- Witness for C5 amended: the three-character query "abc" typed in the
category view. -/
theorem C5_amended_witness :
    ("abc" : String).length > 2 ∧
    (handleSearchChange catStateEx "abc").view = View.home ∧
    effectAction (handleSearchChange catStateEx "abc")
      = FetchAction.searchPrompts "abc" :=
  ⟨by decide, (C5_amended catStateEx "abc" (by decide)).1,
   (C5_amended catStateEx "abc" (by decide)).2⟩

/-- C7: a category id whose file exists and parses is served successfully
by both servers — an empty prompt list included — while an id with no
backing file is answered 404 by both, and the two outcomes differ. -/
theorem C7_category_routes (files : String → Option (Option CategoryDoc))
    (cid uid : String) (doc : CategoryDoc)
    (hknown : files cid = some (some doc)) (hunknown : files uid = none) :
    portalCategoryRoute (files cid) = Except.ok doc ∧
    esmCategoryRoute (files cid) = Except.ok doc ∧
    portalCategoryRoute (files uid) = Except.error 404 ∧
    esmCategoryRoute (files uid) = Except.error 404 ∧
    portalCategoryRoute (files cid) ≠ portalCategoryRoute (files uid) := by
  rw [hknown, hunknown]
  refine ⟨rfl, rfl, rfl, rfl, ?_⟩
  intro hc
  exact Except.noConfusion hc

/-- Witness for C7: the category `coding` exists with zero prompts, the id
`nope` has no file. -/
theorem C7_category_routes_witness :
    catFilesEx "coding" = some (some { prompts := [] }) ∧
    catFilesEx "nope" = none ∧
    portalCategoryRoute (catFilesEx "coding") = Except.ok { prompts := [] } ∧
    esmCategoryRoute (catFilesEx "coding") = Except.ok { prompts := [] } ∧
    portalCategoryRoute (catFilesEx "nope") = Except.error 404 ∧
    esmCategoryRoute (catFilesEx "nope") = Except.error 404 :=
  have h := C7_category_routes catFilesEx "coding" "nope" { prompts := [] }
    (by decide) (by decide)
  ⟨by decide, by decide, h.1, h.2.1, h.2.2.1, h.2.2.2.1⟩

/-- C9: a home-view query of length one or two dispatches no fetch at all,
leaves the held prompts unchanged, and the main area renders the prompts
list — the stale prompts of a previous fetch, or the not-found empty state
when none are held — instead of the category grid. -/
theorem C9_short_query_stale_list (st : AppState) (q : String)
    (hv : st.view = View.home) (hl : st.loadingPrompts = false)
    (h1 : 1 ≤ q.length) (h2 : q.length ≤ 2) :
    effectAction (handleSearchChange st q) = FetchAction.idle ∧
    (handleSearchChange st q).prompts = st.prompts ∧
    renderMain (handleSearchChange st q)
      = (if st.prompts = [] then MainContent.notFoundState
         else MainContent.promptsList st.prompts) := by
  have hq : q ≠ "" := by
    intro he
    subst he
    exact (by decide : ¬ (1 ≤ ("" : String).length)) h1
  have hlen : ¬ (q.length > 2) := by omega
  refine ⟨?_, ?_, ?_⟩
  · simp [effectAction, handleSearchChange, hv, hlen]
  · simp [handleSearchChange]
  · simp [renderMain, handleSearchChange, hv, hlen, hq, hl]

/-- Witness for C9: the two-character query "em" typed at home while the
prompts of a previous fetch are still held. -/
theorem C9_short_query_stale_list_witness :
    homeStateEx.view = View.home ∧ homeStateEx.loadingPrompts = false ∧
    1 ≤ ("em" : String).length ∧ ("em" : String).length ≤ 2 ∧
    effectAction (handleSearchChange homeStateEx "em") = FetchAction.idle ∧
    (handleSearchChange homeStateEx "em").prompts = homeStateEx.prompts ∧
    renderMain (handleSearchChange homeStateEx "em")
      = (if homeStateEx.prompts = [] then MainContent.notFoundState
         else MainContent.promptsList homeStateEx.prompts) :=
  have h := C9_short_query_stale_list homeStateEx "em" (by decide) (by decide)
    (by decide) (by decide)
  ⟨by decide, by decide, by decide, by decide, h.1, h.2.1, h.2.2⟩

/-- The collection loop of the ESM search gathers exactly the prompts of
the categories whose files are readable, in order. -/
theorem collectAllPrompts_eq_filterMap (cats : List Category)
    (readCat : String → Option (List Prompt)) :
    collectAllPrompts cats readCat
      = (cats.filterMap (fun c => readCat c.id)).flatten := by
  induction cats with
  | nil => rfl
  | cons c rest ih =>
      cases h : readCat c.id with
      | none => simp [collectAllPrompts, h, ih]
      | some ps => simp [collectAllPrompts, h, ih]

/-- C10: for any pattern of per-category read failures, the ESM search
still answers successfully, and its result is the filter of the
concatenated prompts of exactly the readable categories — an unreadable
category is silently omitted rather than failing the request. -/
theorem C10_search_skips_unreadable (q : String) (cats : List Category)
    (readCat : String → Option (List Prompt)) (h : 2 ≤ (jsToLower q).length) :
    esmSearch q (some cats) readCat
      = Except.ok (((cats.filterMap (fun c => readCat c.id)).flatten).filter
          (esmMatches (jsToLower q))) := by
  have hnot : ¬ ((jsToLower q).length < 2) := by omega
  simp [esmSearch, hnot, collectAllPrompts_eq_filterMap]

/-- Witness for C10: the file of category `c2` is unreadable, yet the
search succeeds with the matches of `c1` only. -/
theorem C10_search_skips_unreadable_witness :
    2 ≤ (jsToLower "ema").length ∧
    readCatEx "c2" = none ∧
    esmSearch "ema" (some [catA, catB]) readCatEx
      = Except.ok ((([catA, catB].filterMap (fun c => readCatEx c.id)).flatten).filter
          (esmMatches (jsToLower "ema"))) ∧
    esmSearch "ema" (some [catA, catB]) readCatEx = Except.ok [promptA] :=
  ⟨by decide, by decide,
   C10_search_skips_unreadable "ema" [catA, catB] readCatEx (by decide),
   by decide⟩

/-- C4 counterexample: the portal search on query "zzq" returns the prompt
`p9`, although "zzq" occurs neither in its title nor in its description
(nor in any tag — the portal prompt records carry no tags at all): the
portal matches against the prompt body, refuting the claimed
title/description/tags characterization. -/
theorem C4_counterexample :
    portalSearch "zzq" (some [pcatEx]) (some [("p9.json", some bodyPromptEx)])
      = Except.ok [toSearchResult [pcatEx] bodyPromptEx] ∧
    jsIncludes (jsToLower bodyPromptEx.title) "zzq" = false ∧
    jsIncludes (jsToLower bodyPromptEx.description) "zzq" = false := by
  decide

/-- C4 amended: both searches are case-insensitive substring filters that
preserve the storage order of the backing collection, but over different
field sets — the ESM server consults title, short description and tags,
while the portal server consults title, description and the prompt body
(and no tags). -/
theorem C4_amended :
    (∀ (q : String) (cats : List Category) (readCat : String → Option (List Prompt))
        (rs : List Prompt), 2 ≤ (jsToLower q).length →
        esmSearch q (some cats) readCat = Except.ok rs →
        rs.Sublist (collectAllPrompts cats readCat) ∧
        ∀ p, p ∈ rs ↔ p ∈ collectAllPrompts cats readCat ∧
          (jsIncludes (jsToLower p.title) (jsToLower q) = true ∨
           jsIncludes (jsToLower p.shortDescription) (jsToLower q) = true ∨
           ∃ t ∈ p.tags, jsIncludes (jsToLower t) (jsToLower q) = true)) ∧
    (∀ (q : String) (cats : List PCategory)
        (files : List (String × Option PortalPrompt))
        (ps : List PortalPrompt) (rs : List PortalSearchResult),
        jsTrim q ≠ "" →
        portalCollect files = some ps →
        portalSearch q (some cats) (some files) = Except.ok rs →
        rs = (ps.filter (portalMatches (jsTrim (jsToLower q)))).map
              (toSearchResult cats) ∧
        ∀ r, r ∈ rs ↔ ∃ p, p ∈ ps ∧
          (jsIncludes (jsToLower p.title) (jsTrim (jsToLower q)) = true ∨
           jsIncludes (jsToLower p.description) (jsTrim (jsToLower q)) = true ∨
           jsIncludes (jsToLower p.prompt) (jsTrim (jsToLower q)) = true) ∧
          r = toSearchResult cats p) := by
  constructor
  · intro q cats readCat rs hlen hok
    have hnot : ¬ ((jsToLower q).length < 2) := by omega
    simp only [esmSearch, hnot, if_false, Except.ok.injEq] at hok
    subst hok
    refine ⟨List.filter_sublist _, ?_⟩
    intro p
    simp [List.mem_filter, esmMatches, List.any_eq_true, Bool.or_eq_true]
    exact fun _ => or_assoc
  · intro q cats files ps rs hq hcol hok
    simp only [portalSearch, hq, if_false, hcol, Except.ok.injEq] at hok
    subst hok
    refine ⟨rfl, ?_⟩
    intro r
    simp [List.mem_map, List.mem_filter, portalMatches, Bool.or_eq_true]
    constructor
    · rintro ⟨p, ⟨hp, hm⟩, hr⟩
      exact ⟨p, hp, or_assoc.mp hm, hr.symm⟩
    · rintro ⟨p, hp, hm, hr⟩
      exact ⟨p, ⟨hp, or_assoc.mpr hm⟩, hr.symm⟩

/-- Witness for C4 amended: the ESM search on "ema" over the two-category
fixture, and the portal search on "zzq" over the body-matching fixture. -/
theorem C4_amended_witness :
    (2 ≤ (jsToLower "ema").length ∧
     esmSearch "ema" (some [catA, catB]) readCatEx = Except.ok [promptA] ∧
     (List.Sublist [promptA] (collectAllPrompts [catA, catB] readCatEx) ∧
      ∀ p, p ∈ [promptA] ↔ p ∈ collectAllPrompts [catA, catB] readCatEx ∧
        (jsIncludes (jsToLower p.title) (jsToLower "ema") = true ∨
         jsIncludes (jsToLower p.shortDescription) (jsToLower "ema") = true ∨
         ∃ t ∈ p.tags, jsIncludes (jsToLower t) (jsToLower "ema") = true))) ∧
    (jsTrim "zzq" ≠ "" ∧
     portalCollect [("p9.json", some bodyPromptEx)] = some [bodyPromptEx] ∧
     portalSearch "zzq" (some [pcatEx]) (some [("p9.json", some bodyPromptEx)])
       = Except.ok [toSearchResult [pcatEx] bodyPromptEx] ∧
     ([toSearchResult [pcatEx] bodyPromptEx]
        = ([bodyPromptEx].filter (portalMatches (jsTrim (jsToLower "zzq")))).map
            (toSearchResult [pcatEx]) ∧
      ∀ r, r ∈ [toSearchResult [pcatEx] bodyPromptEx] ↔ ∃ p, p ∈ [bodyPromptEx] ∧
        (jsIncludes (jsToLower p.title) (jsTrim (jsToLower "zzq")) = true ∨
         jsIncludes (jsToLower p.description) (jsTrim (jsToLower "zzq")) = true ∨
         jsIncludes (jsToLower p.prompt) (jsTrim (jsToLower "zzq")) = true) ∧
        r = toSearchResult [pcatEx] p)) :=
  ⟨⟨by decide, by decide,
    C4_amended.1 "ema" [catA, catB] readCatEx [promptA] (by decide) (by decide)⟩,
   ⟨by decide, by decide, by decide,
    C4_amended.2 "zzq" [pcatEx] [("p9.json", some bodyPromptEx)] [bodyPromptEx]
      [toSearchResult [pcatEx] bodyPromptEx] (by decide) (by decide) (by decide)⟩⟩

end PromtSpace
